import Mathlib

/-!
Verification of the adaptive contextual-RAG pipeline: shallow embeddings of
the ingestion event handler (`components/data_pipeline/event_handler/index.py`),
the Bedrock stream adapter (`adapter.py`), the agent utilities
(`components/agent/runtime/app/utils.py`), the Answer Graph
(`components/agent/runtime/app/agent.py`) and the chat HTTP handler
(`components/agent/runtime/app/main.py`); external services (embedding,
rerank, vector index, generation model) are abstracted as function parameters,
exactly at the call boundary the source uses.
-/

namespace AdaptiveCag

/-! ## Embedding client with retry (index.py and utils.py `get_embeddings`) -/

/-- Outcome of one attempt of the external embedding call `pc.inference.embed`:
either a response, or the rate-limit exception `PineconeApiException`. -/
inductive EmbedOutcome (R : Type) where
  | ok (response : R)
  | rateLimited
  deriving DecidableEq

/-- Result of the retry loop together with the sleeps it performed
(`time.sleep(2**i)`), in order, so that backoff timing is visible. -/
structure RetryTrace (R : Type) where
  result : Except String R
  sleeps : List Nat

/-- The retry loop shared verbatim by `get_embeddings` in
`data_pipeline/event_handler/index.py` (lines 76–93) and in
`agent/runtime/app/utils.py` (lines 36–65):

    for i in range(5):
        try:
            response = pc.inference.embed(...)
            passed = True
        except PineconeApiException:
            time.sleep(2**i)
            passed = False
    if not passed:
        raise RuntimeError("Failed to create embeddings!")
    return response

`svc i` is the outcome of the service call made in iteration `i`.  The loop
body keeps the latest successful `response`, overwrites `passed` on every
iteration, and never breaks; the fold state is
`(response?, passed, sleeps so far)`, started at `(none, false, [])`. -/
def get_embeddings {R : Type} (svc : Nat → EmbedOutcome R) : RetryTrace R :=
  let final := (List.range 5).foldl
    (fun (st : Option R × Bool × List Nat) i =>
      match svc i with
      | .ok r => (some r, true, st.2.2)
      | .rateLimited => (st.1, false, st.2.2 ++ [2 ^ i]))
    (none, false, [])
  match final.2.1, final.1 with
  | true, some r => ⟨.ok r, final.2.2⟩
  | _, _ => ⟨.error "Failed to create embeddings!", final.2.2⟩

/-- A service that succeeds on the very first attempt and is rate-limited on
every later one: the scenario the spec's retry clause is about. -/
def svcFirstOk : Nat → EmbedOutcome Nat :=
  fun i => if i = 0 then .ok 42 else .rateLimited

/-! ## Ingestion batch loop (index.py `lambda_handler`, lines 144–214)

    for record in event["Records"]:
        try:
            ... process record ...
        except Exception as e:
            LOGGER.error(...)
            raise e

`proc` abstracts the whole try-body for one record (parse, chunk, enrich,
embed, classify, upsert).  The loop raises at the first failing record, so
the handler's observable behaviour is the list of records processed before
that failure and the error (if any) that escaped. -/

/-- Processes a batch of records in order; returns the results of the records
processed before the first failure, and `some e` when record processing
raised `e` (the `raise e` in the handler's `except` block), `none` when the
whole batch succeeded. -/
def lambda_handler {ρ α : Type} (proc : ρ → Except String α) :
    List ρ → List α × Option String
  | [] => ([], none)
  | r :: rs =>
    match proc r with
    | .ok a =>
      let rest := lambda_handler proc rs
      (a :: rest.1, rest.2)
    | .error e => ([], some e)

/-- A record processor for concrete batches: `true` is a well-formed record,
`false` is a malformed one (unparsable data / missing required field). -/
def procSample : Bool → Except String Bool :=
  fun b => if b then .ok b else .error "malformed record"

/-! ## VectorRecord assembly for upsert (index.py lines 194–208)

    records = []
    for d, e in zip(data, embeddings):
        records.append({"id": d["id"], "values": e["values"],
                        "metadata": {...}})
    index.upsert(vectors=records, namespace=namespace)
-/

/-- A record stored in the vector index: id, embedding values and the
metadata dict assembled by the handler.  Embedding values are opaque here
(type parameter `V`): the handler never inspects them. -/
structure VectorRecord (V : Type) where
  id : String
  values : V
  event_id : String
  text : String
  summary : String
  updated_at : String

/-- The record-assembly loop of `lambda_handler`: contextual-chunk `data`
entries (`id`, `text` pairs) are paired positionally with the returned
`embeddings` via `zip`. -/
def assembleRecords {V : Type} (eventId summary updatedAt : String)
    (data : List (String × String)) (embeddings : List V) :
    List (VectorRecord V) :=
  (data.zip embeddings).map fun de =>
    ⟨de.1.1, de.2, eventId, de.1.2, summary, updatedAt⟩

/-- C1 — code bug.  The retry loop of `get_embeddings` has no `break` and
`passed` is overwritten on every iteration, so it reflects only the last
attempt: with a service that succeeds on attempt 0 and is rate-limited on
attempts 1–4, the code sleeps 2, 4, 8 and 16 seconds and then raises
`RuntimeError("Failed to create embeddings!")`, even though the embed
request succeeded on an attempt within the five — the claim (and the spec)
require the vectors from that success to be returned. -/
theorem c1_success_then_rate_limit_still_raises :
    (get_embeddings svcFirstOk).result = .error "Failed to create embeddings!"
      ∧ (get_embeddings svcFirstOk).sleeps = [2, 4, 8, 16] :=
  ⟨rfl, rfl⟩

/-- C2 — counterexample.  In the batch `[malformed, wellFormed]` the failure
of the first record is raised (second component `some …`), but the
well-formed sibling — which processes fine on its own, as the second
conjunct shows — is not processed: the claim that the remaining sibling
records in the same batch are still processed is false. -/
theorem c2_sibling_not_processed :
    lambda_handler procSample [false, true] = ([], some "malformed record")
      ∧ lambda_handler procSample [true] = ([true], none) :=
  ⟨rfl, rfl⟩

/-- C2 — amended.  A malformed record is fatal for itself and for the
remainder of the batch: the records preceding it are processed, it and all
subsequent sibling records are not, and the failure is raised to the
surrounding delivery mechanism rather than swallowed. -/
theorem c2_malformed_aborts_rest_of_batch {ρ α : Type}
    (proc : ρ → Except String α) (pre : List ρ) (bad : ρ) (post : List ρ)
    (e : String) (hpre : (lambda_handler proc pre).2 = none)
    (hbad : proc bad = .error e) :
    lambda_handler proc (pre ++ bad :: post) =
      ((lambda_handler proc pre).1, some e) := by
  induction pre with
  | nil => simp [lambda_handler, hbad]
  | cons r rs ih =>
    cases h : proc r with
    | ok a =>
      simp only [List.cons_append, lambda_handler, h, List.append_eq] at hpre ⊢
      rw [ih hpre]
    | error e' => simp [lambda_handler, h] at hpre

/-- C2 — witness: the amended theorem applied to the concrete batch
`[wellFormed, malformed, wellFormed]`. -/
theorem c2_malformed_aborts_rest_of_batch_witness :
    lambda_handler procSample ([true] ++ false :: [true]) =
      ((lambda_handler procSample [true]).1, some "malformed record") :=
  c2_malformed_aborts_rest_of_batch procSample [true] false [true]
    "malformed record" rfl rfl

/-- C10.  The number of upserted records is the smaller of the number of
contextual chunks and the number of returned embeddings, and the record ids
are exactly the ids of the first `embeddings.length` chunks: if the
embedding response carries fewer vectors than there are chunks, the surplus
chunks are silently dropped from the upsert (the assembly is total — no
error is possible). -/
theorem c10_zip_truncates_surplus_chunks {V : Type}
    (eventId summary updatedAt : String)
    (data : List (String × String)) (embeddings : List V) :
    (assembleRecords eventId summary updatedAt data embeddings).length
        = min data.length embeddings.length
      ∧ (assembleRecords eventId summary updatedAt data embeddings).map
          (fun r => r.id)
        = (data.map Prod.fst).take embeddings.length := by
  constructor
  · simp [assembleRecords]
  · induction data generalizing embeddings with
    | nil => simp [assembleRecords]
    | cons d ds ih =>
      cases embeddings with
      | nil => simp [assembleRecords]
      | cons e es =>
        simpa [assembleRecords, List.zip_cons_cons] using ih es

/-! ## Bedrock stream adapter (adapter.py `invoke_model`, lines 48–57)

    for event in response.get("body"):
        chunk = json.loads(event["chunk"]["bytes"].decode())
        if chunk["type"] == "content_block_delta":
            yield chunk["delta"]["text"]
        elif chunk["type"] == "message_delta":
            if "stop_reason" in chunk["delta"]:
                break
-/

/-- One decoded chunk of the generation response stream. -/
inductive StreamEvent where
  | contentDelta (text : String)
  | messageDelta (hasStopReason : Bool)
  | otherEvent
  deriving DecidableEq

/-- The fragments yielded by `BedrockStreamAdapter.invoke_model` for a given
response stream: `content_block_delta` texts are yielded, a `message_delta`
carrying a `stop_reason` breaks the loop, everything else is skipped. -/
def invoke_model : List StreamEvent → List String
  | [] => []
  | .contentDelta t :: rest => t :: invoke_model rest
  | .messageDelta true :: _ => []
  | .messageDelta false :: rest => invoke_model rest
  | .otherEvent :: rest => invoke_model rest

/-- Python's `"".join`: concatenation of the strings in order. -/
def joinAll : List String → String
  | [] => ""
  | s :: rest => s ++ joinAll rest

/-- The contextual-retrieval prompt template of `index.py` (lines 28–42),
with `doc_content` and `chunk_content` substituted as `str.format` does. -/
def contextual_prompt (docContent chunkContent : String) : String :=
  "\n    <document>\n    " ++ docContent ++ "\n    </document>\n\n\n"
    ++ "    Here is the chunk we want to situate within the whole document\n"
    ++ "    <chunk>\n    " ++ chunkContent ++ "\n    </chunk>\n\n\n"
    ++ "    Please give a short, succinct context to situate this chunk "
    ++ "within the overall document, for the purposes of improving search "
    ++ "retrieval of the chunk.\n"
    ++ "    Answer only with the succinct context and nothing else.\n"

/-- `"".join(response for response in response_stream if response)` applied
to the adapter's stream (index.py line 169): empty fragments are filtered
out before joining. -/
def contextualChunkOf (events : List StreamEvent) : String :=
  joinAll ((invoke_model events).filter (fun s => s != ""))

/-- The contextual-chunk assembly loop of `lambda_handler` (lines 157–177):
for chunk `i`, the record id is `"{event_id}-{i}"` and the text is the
adapter's joined stream output followed by `"\n\n"` and the chunk.  `gen`
is the generation model: prompt ↦ response stream. -/
def buildContextualChunks (gen : String → List StreamEvent)
    (eventId doc : String) (chunks : List String) :
    List (String × String) :=
  chunks.enum.map fun ic =>
    (eventId ++ "-" ++ toString ic.1,
     contextualChunkOf (gen (contextual_prompt doc ic.2)) ++ "\n\n" ++ ic.2)

/-- Following the spec's words: the enrichment context is "the
in-delivery-order concatenation of the generation stream's fragments up to
the terminal stop-reason signal" — the `content_block_delta` texts delivered
strictly before the first `message_delta` carrying a stop reason. -/
def specDeliveredFragments (events : List StreamEvent) : List String :=
  (events.takeWhile fun e =>
      match e with
      | .messageDelta true => false
      | _ => true).filterMap fun e =>
    match e with
    | .contentDelta t => some t
    | _ => none

theorem invoke_model_eq_specDeliveredFragments (events : List StreamEvent) :
    invoke_model events = specDeliveredFragments events := by
  induction events with
  | nil => rfl
  | cons e rest ih =>
    cases e with
    | contentDelta t =>
      simp [invoke_model, specDeliveredFragments, List.takeWhile_cons] at ih ⊢
      exact ih
    | messageDelta b =>
      cases b with
      | true => rfl
      | false =>
        simp [invoke_model, specDeliveredFragments, List.takeWhile_cons] at ih ⊢
        exact ih
    | otherEvent =>
      simp [invoke_model, specDeliveredFragments, List.takeWhile_cons] at ih ⊢
      exact ih

theorem joinAll_filter_ne_empty (l : List String) :
    joinAll (l.filter fun s => s != "") = joinAll l := by
  induction l with
  | nil => rfl
  | cons s rest ih =>
    by_cases h : s = ""
    · subst h
      simpa [joinAll, List.filter_cons, String.empty_append] using ih
    · simp [joinAll, List.filter_cons, h, ih]

/-- The vector store's upsert contract at the boundary (spec §4.5): upsert
is keyed by `id`, last-write-wins — records whose id is re-sent are replaced
in place, all other stored records are kept.  Tracked at the level of stored
ids. -/
def upsertIds (stored ids : List String) : List String :=
  stored.filter (fun s => !(ids.contains s)) ++ ids

theorem filter_not_contains_self (ids : List String) :
    ids.filter (fun s => !(ids.contains s)) = [] := by
  rw [List.filter_eq_nil_iff]
  intro a ha
  simp [ha]

theorem upsertIds_idem (stored ids : List String) :
    upsertIds (upsertIds stored ids) ids = upsertIds stored ids := by
  simp only [upsertIds]
  rw [List.filter_append, filter_not_contains_self, List.filter_filter]
  simp

theorem contextualChunkOf_eq_spec (events : List StreamEvent) :
    contextualChunkOf events = joinAll (specDeliveredFragments events) := by
  rw [contextualChunkOf, joinAll_filter_ne_empty,
    invoke_model_eq_specDeliveredFragments]

/-- C4.  For every ingested event and chunk index `i`, the assembled record's
id is `"{event_id}-{i}"` and its text is the enrichment context — the
in-delivery-order concatenation of the generation stream's fragments up to
the terminal stop-reason signal — followed by `"\n\n"` and the chunk's text;
the ids do not depend on the generation output, so re-ingesting the same
event yields identical ids, and under the store's keyed last-write-wins
upsert a second upsert of those ids overwrites rather than duplicates. -/
theorem c4_record_ids_and_texts (gen gen' : String → List StreamEvent)
    (eventId doc doc' : String) (chunks : List String)
    (stored : List String) :
    (buildContextualChunks gen eventId doc chunks).map Prod.fst
        = (List.range chunks.length).map (fun i => eventId ++ "-" ++ toString i)
      ∧ (buildContextualChunks gen eventId doc chunks).map Prod.snd
        = chunks.map (fun c =>
            joinAll (specDeliveredFragments (gen (contextual_prompt doc c)))
              ++ "\n\n" ++ c)
      ∧ (buildContextualChunks gen' eventId doc' chunks).map Prod.fst
        = (buildContextualChunks gen eventId doc chunks).map Prod.fst
      ∧ upsertIds
            (upsertIds stored
              ((buildContextualChunks gen eventId doc chunks).map Prod.fst))
            ((buildContextualChunks gen eventId doc chunks).map Prod.fst)
        = upsertIds stored
            ((buildContextualChunks gen eventId doc chunks).map Prod.fst) := by
  have hids : ∀ (g : String → List StreamEvent) (d : String),
      (buildContextualChunks g eventId d chunks).map Prod.fst
        = (List.range chunks.length).map (fun i => eventId ++ "-" ++ toString i) := by
    intro g d
    rw [buildContextualChunks, List.map_map]
    rw [show ((Prod.fst ∘ fun ic : Nat × String =>
        (eventId ++ "-" ++ toString ic.1,
         contextualChunkOf (g (contextual_prompt d ic.2)) ++ "\n\n" ++ ic.2))
      = ((fun i => eventId ++ "-" ++ toString i) ∘ Prod.fst)) from rfl]
    rw [← List.map_map, List.enum_map_fst]
  refine ⟨hids gen doc, ?_, (hids gen' doc').trans (hids gen doc).symm,
    upsertIds_idem _ _⟩
  rw [buildContextualChunks, List.map_map]
  rw [show ((Prod.snd ∘ fun ic : Nat × String =>
      (eventId ++ "-" ++ toString ic.1,
       contextualChunkOf (gen (contextual_prompt doc ic.2)) ++ "\n\n" ++ ic.2))
    = ((fun c => contextualChunkOf (gen (contextual_prompt doc c)) ++ "\n\n" ++ c)
        ∘ Prod.snd)) from rfl]
  rw [← List.map_map, List.enum_map_snd]
  exact List.map_congr_left fun c _ => by rw [contextualChunkOf_eq_spec]

/-! ## Vector index boundary and retrieval
(`utils.py` `get_namespace`/`get_context`, `index.py` `get_namespace`) -/

/-- A match returned by `index.query`: the record id and the metadata fields
the code reads (`text`, `namespace`). -/
structure IndexMatch where
  id : String
  text : String
  nsField : String
  deriving DecidableEq

/-- The external Pinecone index at the call boundary the code uses:
similarity query by vector and point lookup by id, each scoped to one
namespace and a `top_k`; `V` is the opaque embedding-vector type. -/
structure VIndex (V : Type) where
  queryByVector : String → V → Nat → List IndexMatch
  queryById : String → String → Nat → List IndexMatch

/-- One call issued to an external service during retrieval, with the
arguments the claims are about. -/
inductive ServiceCall where
  | embedCall (inputType : String)
  | queryCall (ns : String) (topK : Nat)
  | rerankCall (topN : Nat)
  | fetchCall (ns : String)
  deriving DecidableEq

/-- The partition a call is issued against, when it has one. -/
def callTarget : ServiceCall → Option String
  | .queryCall ns _ => some ns
  | .fetchCall ns => some ns
  | _ => none

/-- `get_namespace` of `agent/runtime/app/utils.py` (lines 68–129), with the
calls it issues logged in order: embed the text (`input_type="query"`), query
the `"router"` namespace for the top 5 matches, rerank those matches
(`top_n=3`) as `(id, text)` documents, then point-look the winning id up in
`"router"` (`top_k=1`) and return that record's `namespace` metadata.  An
empty intermediate result raises `IndexError` (`data[0]` / `matches[0]`). -/
def get_namespace_query {V : Type} (idx : VIndex V) (embed : String → V)
    (rerank : String → List (String × String) → Nat → List (String × String))
    (text : String) : Except String String × List ServiceCall :=
  let emb := embed text
  let qr := idx.queryByVector "router" emb 5
  let docs := qr.map fun m => (m.id, m.text)
  match (rerank text docs 3).head? with
  | none => (.error "list index out of range",
      [.embedCall "query", .queryCall "router" 5, .rerankCall 3])
  | some top =>
    match (idx.queryById "router" top.1 1).head? with
    | none => (.error "list index out of range",
        [.embedCall "query", .queryCall "router" 5, .rerankCall 3,
         .fetchCall "router"])
    | some m => (.ok m.nsField,
        [.embedCall "query", .queryCall "router" 5, .rerankCall 3,
         .fetchCall "router"])

/-- `get_namespace` of `data_pipeline/event_handler/index.py` (lines
96–124): same routing lookup at ingestion time, except that reranking was
removed (rate limit) — the winner is the top similarity match. -/
def get_namespace_ingest {V : Type} (idx : VIndex V) (embed : String → V)
    (summary : String) : Except String String × List ServiceCall :=
  let emb := embed summary
  let qr := idx.queryByVector "router" emb 5
  match qr.head? with
  | none => (.error "list index out of range",
      [.embedCall "query", .queryCall "router" 5])
  | some top =>
    match (idx.queryById "router" top.id 1).head? with
    | none => (.error "list index out of range",
        [.embedCall "query", .queryCall "router" 5, .fetchCall "router"])
    | some m => (.ok m.nsField,
        [.embedCall "query", .queryCall "router" 5, .fetchCall "router"])

/-- `get_context` of `agent/runtime/app/utils.py` (lines 132–194): embed the
question (`input_type="query"`), query the given namespace for the top 10
matches, rerank (`top_n=3`), point-look the top-ranked id up in the same
namespace and return that single record's `text` metadata. -/
def get_context {V : Type} (idx : VIndex V) (embed : String → V)
    (rerank : String → List (String × String) → Nat → List (String × String))
    (text ns : String) : Except String String × List ServiceCall :=
  let emb := embed text
  let qr := idx.queryByVector ns emb 10
  let docs := qr.map fun m => (m.id, m.text)
  match (rerank text docs 3).head? with
  | none => (.error "list index out of range",
      [.embedCall "query", .queryCall ns 10, .rerankCall 3])
  | some top =>
    match (idx.queryById ns top.1 1).head? with
    | none => (.error "list index out of range",
        [.embedCall "query", .queryCall ns 10, .rerankCall 3, .fetchCall ns])
    | some m => (.ok m.text,
        [.embedCall "query", .queryCall ns 10, .rerankCall 3, .fetchCall ns])

theorem get_namespace_query_log {V : Type} (idx : VIndex V)
    (embed : String → V) (rerank : String → List (String × String) → Nat →
      List (String × String)) (text : String) :
    (get_namespace_query idx embed rerank text).2
        = [.embedCall "query", .queryCall "router" 5, .rerankCall 3]
      ∨ (get_namespace_query idx embed rerank text).2
        = [.embedCall "query", .queryCall "router" 5, .rerankCall 3,
           .fetchCall "router"] := by
  rw [get_namespace_query]
  split
  · exact Or.inl rfl
  · split
    · exact Or.inr rfl
    · exact Or.inr rfl

theorem get_namespace_ingest_log {V : Type} (idx : VIndex V)
    (embed : String → V) (summary : String) :
    (get_namespace_ingest idx embed summary).2
        = [.embedCall "query", .queryCall "router" 5]
      ∨ (get_namespace_ingest idx embed summary).2
        = [.embedCall "query", .queryCall "router" 5, .fetchCall "router"] := by
  rw [get_namespace_ingest]
  split
  · exact Or.inl rfl
  · split
    · exact Or.inr rfl
    · exact Or.inr rfl

/-- C5.  Both classification functions only ever issue index queries against
the reserved `"router"` partition (first two conjuncts, unconditional over
every logged call), and when the intermediate results are non-empty the
returned label is exactly the `namespace` metadata field of the winning
record fetched by the second, by-id point lookup (last two conjuncts, for
the query-time and the ingestion-time function respectively). -/
theorem c5_router_partition_only {V : Type} (idx : VIndex V)
    (embed : String → V)
    (rerank : String → List (String × String) → Nat → List (String × String))
    (text summary : String) :
    (∀ c ∈ (get_namespace_query idx embed rerank text).2,
        callTarget c = none ∨ callTarget c = some "router")
      ∧ (∀ c ∈ (get_namespace_ingest idx embed summary).2,
          callTarget c = none ∨ callTarget c = some "router")
      ∧ (∀ top m,
          (rerank text ((idx.queryByVector "router" (embed text) 5).map
            fun mm => (mm.id, mm.text)) 3).head? = some top →
          (idx.queryById "router" top.1 1).head? = some m →
          (get_namespace_query idx embed rerank text).1 = .ok m.nsField)
      ∧ (∀ top m,
          (idx.queryByVector "router" (embed summary) 5).head? = some top →
          (idx.queryById "router" top.id 1).head? = some m →
          (get_namespace_ingest idx embed summary).1 = .ok m.nsField) := by
  refine ⟨?_, ?_, ?_, ?_⟩
  · rcases get_namespace_query_log idx embed rerank text with h | h <;>
      rw [h] <;> decide
  · rcases get_namespace_ingest_log idx embed summary with h | h <;>
      rw [h] <;> decide
  · intro top m htop hm
    rw [get_namespace_query]
    simp only [htop, hm]
  · intro top m htop hm
    rw [get_namespace_ingest]
    simp only [htop, hm]

/-- A concrete index for witnesses: the similarity search returns one
reference match, the point lookup returns the record with that id, carrying
`text` metadata `"ref text"` and `namespace` metadata `"sports"`. -/
def sampleIdx : VIndex Unit where
  queryByVector := fun _ _ _ => [⟨"ref-1", "ref text", ""⟩]
  queryById := fun _ id _ => [⟨id, "ref text", "sports"⟩]

/-- A rerank service for witnesses that keeps the candidate order. -/
def keepOrderRerank :
    String → List (String × String) → Nat → List (String × String) :=
  fun _ docs _ => docs

/-- An embedding service for witnesses over the opaque vector type `Unit`. -/
def unitEmbed : String → Unit := fun _ => ()

/-- C5 — witness: both classification functions, run on the concrete index,
return the `namespace` metadata of the fetched reference record. -/
theorem c5_router_partition_only_witness :
    (get_namespace_query sampleIdx unitEmbed keepOrderRerank "q").1
        = .ok "sports"
      ∧ (get_namespace_ingest sampleIdx unitEmbed "s").1 = .ok "sports" :=
  ⟨(c5_router_partition_only sampleIdx unitEmbed keepOrderRerank "q" "s").2.2.1
      ("ref-1", "ref text") ⟨"ref-1", "ref text", "sports"⟩ rfl rfl,
   (c5_router_partition_only sampleIdx unitEmbed keepOrderRerank "q" "s").2.2.2
      ⟨"ref-1", "ref text", ""⟩ ⟨"ref-1", "ref text", "sports"⟩ rfl rfl⟩

/-- C6.  `get_context` embeds the question with `input_type="query"`,
queries the one given namespace for the top 10 candidates, reranks them with
`top_n=3`, point-looks the single highest-ranked candidate's id up in the
same namespace, and returns exactly that one record's `text` metadata as the
context — the call log is exactly these four calls, and the result is one
record's text, never a concatenation of several. -/
theorem c6_get_context_single_record {V : Type} (idx : VIndex V)
    (embed : String → V)
    (rerank : String → List (String × String) → Nat → List (String × String))
    (text ns : String) (top : String × String) (m : IndexMatch)
    (htop : (rerank text ((idx.queryByVector ns (embed text) 10).map
        fun mm => (mm.id, mm.text)) 3).head? = some top)
    (hm : (idx.queryById ns top.1 1).head? = some m) :
    get_context idx embed rerank text ns =
      (.ok m.text,
       [.embedCall "query", .queryCall ns 10, .rerankCall 3, .fetchCall ns]) := by
  rw [get_context]
  simp only [htop, hm]

/-- C6 — witness: `get_context` on the concrete index returns the fetched
record's text and issues exactly the four expected calls. -/
theorem c6_get_context_single_record_witness :
    get_context sampleIdx unitEmbed keepOrderRerank "q" "tech" =
      (.ok "ref text",
       [.embedCall "query", .queryCall "tech" 10, .rerankCall 3,
        .fetchCall "tech"]) :=
  c6_get_context_single_record sampleIdx unitEmbed keepOrderRerank "q" "tech"
    ("ref-1", "ref text") ⟨"ref-1", "ref text", "sports"⟩ rfl rfl

/-! ## Answer Graph (agent.py) and chat endpoint (main.py)

`build_graph` registers four retriever nodes and a generate node, wires
`START` through a conditional edge keyed by `route_question` (which applies
`get_namespace` to the question), each retriever into `generate_answer`, and
`generate_answer` into `END`.  `generate_answer` runs
`prompt | MODEL | StrOutputParser()` with a blocking `.invoke`, so the
state's `answer` is the aggregated model output.  `run_agent` iterates
`graph.stream(..., stream_mode="values")` — the sequence of graph states —
and yields `output["answer"]` for each state that has one. -/

/-- The `GraphState` TypedDict of agent.py: `context` and `answer` are
absent until the retriever / generate node has run. -/
structure GraphState where
  question : String
  context : Option String
  answer : Option String
  deriving DecidableEq

/-- A node of the compiled state graph, as executed. -/
inductive GNode where
  | start
  | retrieverNode (name : String)
  | generateAnswer
  | endNode
  deriving DecidableEq

/-- The conditional-edge mapping registered in `build_graph`
(agent.py lines 164–173). -/
def pathMap (ns : String) : Option String :=
  if ns = "tech" then some "tech_retriever"
  else if ns = "world" then some "world_retriever"
  else if ns = "sports" then some "sports_retriever"
  else if ns = "business" then some "business_retriever"
  else none

/-- The namespace labels that have a retriever branch. -/
def fourNamespaces : List String := ["tech", "world", "sports", "business"]

def isRetrieverNode : GNode → Bool
  | .retrieverNode _ => true
  | _ => false

def isGenerateNode : GNode → Bool
  | .generateAnswer => true
  | _ => false

/-- One execution of the compiled graph on a question, as observed through
`stream_mode="values"`: the label returned by `route_question`
(`classify question`, i.e. `get_namespace`) selects the branch via the
conditional-edge mapping; an unmapped label makes the graph raise.  The
selected retriever calls `get_context` (`getCtx`) with its namespace, then
`generate_answer` aggregates the generation stream (`genFrags`, the model's
answer fragments for a question and context) with a blocking `.invoke`.
Returns the executed node sequence and the streamed state values. -/
def run_graph (classify : String → String) (getCtx : String → String → String)
    (genFrags : String → String → List String) (question : String) :
    Except String (List GNode × List GraphState) :=
  let ns := classify question
  match pathMap ns with
  | none =>
    .error ("Branch condition returned unknown or missing node: " ++ ns)
  | some nodeName =>
    let ctx := getCtx question ns
    let answer := joinAll (genFrags question ctx)
    .ok ([.start, .retrieverNode nodeName, .generateAnswer, .endNode],
         [⟨question, none, none⟩,
          ⟨question, some ctx, none⟩,
          ⟨question, some ctx, some answer⟩])

/-- `run_agent` (agent.py lines 187–191): yields `output["answer"]` for
every streamed state value that has an `answer` key. -/
def run_agent (classify : String → String) (getCtx : String → String → String)
    (genFrags : String → String → List String) (question : String) :
    Except String (List String) :=
  (run_graph classify getCtx genFrags question).map fun tv =>
    tv.2.filterMap fun s => s.answer

/-- The response of `POST /api/chat` (main.py `handle_chat`): an empty
question short-circuits to a fixed prompt-for-input body; otherwise the
agent's chunk stream is forwarded as the streamed body. -/
inductive ChatResponse where
  | fixedResponse (body : String)
  | streamedResponse (chunks : Except String (List String))

/-- `handle_chat` (main.py lines 17–31): `if not question` is true exactly
for the empty string. -/
def handle_chat (classify : String → String) (getCtx : String → String → String)
    (genFrags : String → String → List String) (question : String) :
    ChatResponse :=
  if question = "" then .fixedResponse "Please enter a question!"
  else .streamedResponse (run_agent classify getCtx genFrags question)

theorem pathMap_of_mem (ns : String) (h : ns ∈ fourNamespaces) :
    pathMap ns = some (ns ++ "_retriever") := by
  simp only [fourNamespaces, List.mem_cons, List.not_mem_nil, or_false] at h
  rcases h with h | h | h | h <;> rw [h] <;> rfl

theorem pathMap_of_not_mem (ns : String) (h : ns ∉ fourNamespaces) :
    pathMap ns = none := by
  simp only [fourNamespaces, List.mem_cons, List.not_mem_nil, or_false,
    not_or] at h
  obtain ⟨h1, h2, h3, h4⟩ := h
  simp [pathMap, h1, h2, h3, h4]

theorem run_graph_eq_of_mem (classify : String → String)
    (getCtx : String → String → String)
    (genFrags : String → String → List String) (question : String)
    (h : classify question ∈ fourNamespaces) :
    run_graph classify getCtx genFrags question =
      .ok ([.start, .retrieverNode (classify question ++ "_retriever"),
            .generateAnswer, .endNode],
           [⟨question, none, none⟩,
            ⟨question, some (getCtx question (classify question)), none⟩,
            ⟨question, some (getCtx question (classify question)),
             some (joinAll (genFrags question
               (getCtx question (classify question))))⟩]) := by
  rw [run_graph]
  rw [pathMap_of_mem _ h]

/-- C7.  When the namespace classifier returns one of the four topical
labels for the question, graph execution passes from START through exactly
one retriever node — the one the label selects — then through the generate
node to END; the executed node sequence contains exactly one retriever node
and exactly one generate node (one generation call per question). -/
theorem c7_one_branch_one_generation (classify : String → String)
    (getCtx : String → String → String)
    (genFrags : String → String → List String) (question : String)
    (h : classify question ∈ fourNamespaces) :
    run_graph classify getCtx genFrags question =
      .ok ([.start, .retrieverNode (classify question ++ "_retriever"),
            .generateAnswer, .endNode],
           [⟨question, none, none⟩,
            ⟨question, some (getCtx question (classify question)), none⟩,
            ⟨question, some (getCtx question (classify question)),
             some (joinAll (genFrags question
               (getCtx question (classify question))))⟩])
      ∧ ([GNode.start, .retrieverNode (classify question ++ "_retriever"),
          .generateAnswer, .endNode].countP isRetrieverNode = 1
          ∧ [GNode.start, .retrieverNode (classify question ++ "_retriever"),
             .generateAnswer, .endNode].countP isGenerateNode = 1) :=
  ⟨run_graph_eq_of_mem classify getCtx genFrags question h, rfl, rfl⟩

/-- C7 — witness: a classifier that routes everything to `"sports"` makes
the graph execute the sports retriever once and generate once. -/
theorem c7_one_branch_one_generation_witness :
    run_graph (fun _ => "sports") (fun _ _ => "ctx") (fun _ _ => ["a", "b"])
        "What happened in the match?" =
      .ok ([.start, .retrieverNode "sports_retriever", .generateAnswer,
            .endNode],
           [⟨"What happened in the match?", none, none⟩,
            ⟨"What happened in the match?", some "ctx", none⟩,
            ⟨"What happened in the match?", some "ctx", some "ab"⟩]) := by
  rw [(c7_one_branch_one_generation (fun _ => "sports") (fun _ _ => "ctx")
    (fun _ _ => ["a", "b"]) "What happened in the match?" (by decide)).1]
  rfl

/-- C9.  A classifier label outside the four topical namespaces (for example
the reserved `"router"` label) has no branch in the conditional-edge
mapping, so graph execution fails with an error — a question is never
answered from an unmapped namespace. -/
theorem c9_unmapped_label_raises (classify : String → String)
    (getCtx : String → String → String)
    (genFrags : String → String → List String) (question : String)
    (h : classify question ∉ fourNamespaces) :
    run_graph classify getCtx genFrags question =
      .error ("Branch condition returned unknown or missing node: "
        ++ classify question) := by
  rw [run_graph, pathMap_of_not_mem _ h]

/-- C9 — witness: a classifier that returns the reserved `"router"` label
makes the graph fail rather than fall back to a default retriever. -/
theorem c9_unmapped_label_raises_witness :
    run_graph (fun _ => "router") (fun _ _ => "ctx") (fun _ _ => ["a"])
        "q" =
      .error "Branch condition returned unknown or missing node: router" := by
  rw [c9_unmapped_label_raises (fun _ => "router") (fun _ _ => "ctx")
    (fun _ _ => ["a"]) "q" (by decide)]
  rfl

/-- C3 — counterexample.  With a model stream producing the two fragments
`"Hello, "` and `"world"`, the body delivered to the caller is the single
block `"Hello, world"` — the complete answer buffered into one chunk — and
not the two fragments: the claim that fragments are forwarded incrementally
without first buffering the complete answer is false. -/
theorem c3_fragments_not_forwarded :
    run_agent (fun _ => "tech") (fun _ _ => "ctx")
        (fun _ _ => ["Hello, ", "world"]) "q" = .ok ["Hello, world"]
      ∧ ["Hello, world"] ≠ ["Hello, ", "world"] :=
  ⟨rfl, by decide⟩

/-- C3 — amended.  For every non-empty question whose classifier label has
a retriever branch, the streamed response body consists of exactly one
chunk: the generate node invokes the model blockingly (`runnable.invoke`
aggregates the fragments in arrival order) and the graph's value stream
carries an `answer` only in the final state, so the caller receives the
complete concatenated answer as a single block. -/
theorem c3_single_chunk_full_answer (classify : String → String)
    (getCtx : String → String → String)
    (genFrags : String → String → List String) (question : String)
    (h : classify question ∈ fourNamespaces) :
    run_agent classify getCtx genFrags question =
      .ok [joinAll (genFrags question (getCtx question (classify question)))] := by
  rw [run_agent, run_graph_eq_of_mem classify getCtx genFrags question h]
  rfl

/-- C3 — witness: the amended theorem at a concrete question and stream. -/
theorem c3_single_chunk_full_answer_witness :
    run_agent (fun _ => "world") (fun _ _ => "c") (fun _ _ => ["x", "y"])
        "q2" = .ok ["xy"] := by
  rw [c3_single_chunk_full_answer (fun _ => "world") (fun _ _ => "c")
    (fun _ _ => ["x", "y"]) "q2" (by decide)]
  rfl

/-- C8.  An empty question makes `handle_chat` return the fixed
prompt-for-input response; the result is the same for every classifier,
retriever and generation service — formalising that neither the Answer
Graph, nor a generation call, nor a classifier call contributes to the
response. -/
theorem c8_empty_question_short_circuit (classify classify' : String → String)
    (getCtx getCtx' : String → String → String)
    (genFrags genFrags' : String → String → List String) :
    handle_chat classify getCtx genFrags "" =
        .fixedResponse "Please enter a question!"
      ∧ handle_chat classify getCtx genFrags "" =
          handle_chat classify' getCtx' genFrags' "" :=
  ⟨rfl, rfl⟩

end AdaptiveCag
